import Mathlib

/-!
Check-inn hotel API: request handling over the document store.

A shallow embedding of `src/index.js`: the two validation middlewares, the
flash-to-locals middleware, the ten routes, the catch-all route and the
terminal error handler, as pure functions over an explicit state (the Hotel
and Review collections and the per-session flash stores).

The collaborators that are not part of `index.js` (the Joi schemas, the
ObjectId cast and print functions) are parameters, gathered in `Config`.
-/

namespace CheckInn

/-! ## Data model -/

/-- An ObjectId of the document store. -/
abbrev Id := Nat

/-- Modelled from the spec: the fields of `req.body.hotel`, which are also the
fields of a Hotel document (`model/hotel.js` and `schemas.js` are absent).
A field that the form did not send is `none`. -/
structure HotelFields where
  name : Option String
  location : Option String
  price : Option Int
  description : Option String
  image : Option String
deriving DecidableEq, Repr

/-- Modelled from the spec: the fields of `req.body.review`, which are also the
fields of a Review document (`model/review.js` is absent). -/
structure ReviewFields where
  body : Option String
  rating : Option Int
deriving DecidableEq, Repr

/-- The parsed form body `req.body`. -/
structure Body where
  hotel : Option HotelFields
  review : Option ReviewFields
deriving DecidableEq, Repr

/-- A Hotel document: its `_id`, its fields and the ordered ids of its reviews. -/
structure Hotel where
  id : Id
  fields : HotelFields
  reviews : List Id
deriving DecidableEq, Repr

/-- A Review document. -/
structure Review where
  id : Id
  fields : ReviewFields
deriving DecidableEq, Repr

/-- A Hotel whose review ids have been replaced by the Review documents
(the result of `.populate("reviews")`). -/
structure PopulatedHotel where
  id : Id
  fields : HotelFields
  reviews : List Review
deriving DecidableEq, Repr

/-- One entry of `error.details` of a failed schema validation. -/
structure Detail where
  message : String
deriving DecidableEq, Repr

/-- An error object travelling through `next(err)`: the two properties the
error handler reads. A property that is `undefined` is `none`. -/
structure Err where
  message : Option String
  statusCode : Option Nat
deriving DecidableEq, Repr

/-- Modelled from the spec: `new ExpressError(message, statusCode)`
(`utils/ExpressError.js` is absent), an error carrying the given message and
status code. -/
def ExpressError (message : String) (statusCode : Nat) : Err :=
  { message := some message, statusCode := some statusCode }

/-- The flash store of one session (`req.session.flash`): the queued strings
of the two categories the application uses. -/
structure Flash where
  success : List String
  error : List String
deriving DecidableEq, Repr

/-- The two properties of `res.locals` that the middleware fills. -/
structure Locals where
  success : List String
  error : List String
deriving DecidableEq, Repr

/-- The application state: both collections in insertion order and the flash
store of every session, keyed by session id. -/
structure State where
  hotels : List Hotel
  reviews : List Review
  sessions : List (Nat × Flash)
deriving DecidableEq, Repr

/-- The collaborators of `index.js` that live outside it. `hotelSchema` and
`reviewSchema` give the `error.details` of `schema.validate(req.body)`, or
`none` when validation passes; `castId` is the cast of a path parameter to an
ObjectId (`none` is a CastError); `showId` prints an ObjectId inside a URL. -/
structure Config where
  hotelSchema : Body → Option (List Detail)
  reviewSchema : Body → Option (List Detail)
  castId : String → Option Id
  showId : Id → String

/-- The request method after `methodOverride("_method")`. -/
inductive Method where
  | GET | HEAD | POST | PUT | DELETE | PATCH | OPTIONS
deriving DecidableEq, Repr

/-- A request: effective method, the decoded segments of the path (without
the empty segment of a trailing slash), the form body and the session id of
the cookie. -/
structure Request where
  method : Method
  path : List String
  body : Body
  sid : Nat
deriving DecidableEq, Repr

/-- The ten routes registered before the catch-all, with their parameters. -/
inductive Route where
  | home
  | index
  | newForm
  | create
  | showHotel (id : String)
  | edit (id : String)
  | update (id : String)
  | destroy (id : String)
  | createReview (id : String)
  | deleteReview (id : String) (reviewId : String)
deriving DecidableEq, Repr

/-- The data object handed to `res.render`. -/
inductive ViewData where
  | empty
  | hotels (hotels : List Hotel)
  | hotelShow (hotel : Option PopulatedHotel)
  | hotelEdit (hotel : Option Hotel)
  | err (err : Err)
deriving DecidableEq, Repr

/-- What a route handler does with `res` when it completes. -/
inductive Reply where
  | render (view : String) (data : ViewData)
  | redirect (location : List String)
deriving DecidableEq, Repr

/-- The response: a rendered view with its status and `res.locals`, or a
redirect to the path with the given segments. -/
inductive Response where
  | render (status : Nat) (view : String) (locals : Locals) (data : ViewData)
  | redirect (location : List String)
deriving DecidableEq, Repr

/-- The result of a validation middleware: it calls `next()` or throws. -/
inductive Step where
  | next
  | throw (e : Err)
deriving DecidableEq, Repr

/-! ## Validation middlewares -/

/-- The method `Array.prototype.join(sep)` on an array of strings. -/
def join : List String → String → String
  | [], _ => ""
  | [a], _ => a
  | a :: b :: rest, sep => a ++ sep ++ join (b :: rest) sep

/-- The middleware `validateHotel`: throws a 400 ExpressError with the joined messages when
the hotel schema reports an error, calls `next()` otherwise. -/
def validateHotel (cfg : Config) (body : Body) : Step :=
  match cfg.hotelSchema body with
  | some details => .throw (ExpressError (join (details.map (fun el => el.message)) ",") 400)
  | none => .next

/-- The middleware `validateReview`: the same over the review schema. -/
def validateReview (cfg : Config) (body : Body) : Step :=
  match cfg.reviewSchema body with
  | some details => .throw (ExpressError (join (details.map (fun el => el.message)) ",") 400)
  | none => .next

/-! ## Document store operations -/

/-- The query `Hotel.findById(id)`: the document with that `_id`, if any. -/
def findHotel (hotels : List Hotel) (id : Id) : Option Hotel :=
  hotels.find? (fun h => h.id == id)

/-- The query `Review.findById(id)`. -/
def findReview (reviews : List Review) (id : Id) : Option Review :=
  reviews.find? (fun r => r.id == id)

/-- The `insertOne` of a new Hotel: a duplicate `_id` is rejected. -/
def insertHotel (hotels : List Hotel) (h : Hotel) : Option (List Hotel) :=
  if hotels.any (fun d => d.id == h.id) then none else some (hotels ++ [h])

/-- The `insertOne` of a new Review: a duplicate `_id` is rejected. -/
def insertReview (reviews : List Review) (r : Review) : Option (List Review) :=
  if reviews.any (fun d => d.id == r.id) then none else some (reviews ++ [r])

/-- An `updateOne` by `_id` on the Hotel collection: applies the update to the first document
with that `_id` and leaves the others. -/
def updateHotel (id : Id) (f : Hotel → Hotel) : List Hotel → List Hotel
  | [] => []
  | h :: rest => if h.id == id then f h :: rest else h :: updateHotel id f rest

/-- Modelled from the spec: `Hotel.findByIdAndDelete(id)`, where the Hotel model
(`model/hotel.js`) is absent. Per section 3 a Hotel is destroyed on the delete
request, which also cascades the deletion of its referenced reviews: the first
Hotel document with that `_id` is removed and, with it, every Review document
whose `_id` its `reviews` lists. When no Hotel has that `_id` nothing is
deleted. The result is the two collections afterwards. -/
def deleteHotel (hotels : List Hotel) (reviews : List Review) (id : Id) :
    List Hotel × List Review :=
  match findHotel hotels id with
  | none => (hotels, reviews)
  | some h =>
    (hotels.eraseP (fun d => d.id == id),
     reviews.filter (fun r => !(h.reviews.contains r.id)))

/-- The call `findByIdAndDelete(id)` on the Review collection. -/
def deleteReview (reviews : List Review) (id : Id) : List Review :=
  reviews.eraseP (fun r => r.id == id)

/-- The `$set` of `{ ...req.body.hotel }`: every field the payload carries
replaces the stored one. -/
def setFields (upd : HotelFields) (old : HotelFields) : HotelFields :=
  { name := upd.name.orElse (fun _ => old.name)
    location := upd.location.orElse (fun _ => old.location)
    price := upd.price.orElse (fun _ => old.price)
    description := upd.description.orElse (fun _ => old.description)
    image := upd.image.orElse (fun _ => old.image) }

/-- A payload without any field (`req.body.hotel` undefined). -/
def noHotelFields : HotelFields :=
  { name := none, location := none, price := none, description := none, image := none }

/-- A payload without any field (`req.body.review` undefined). -/
def noReviewFields : ReviewFields :=
  { body := none, rating := none }

/-- The call `.populate("reviews")`: each id is replaced by its document, in order; an
id without a document is dropped. -/
def populate (reviews : List Review) (h : Hotel) : PopulatedHotel :=
  { id := h.id, fields := h.fields, reviews := h.reviews.filterMap (findReview reviews) }

/-! ## Flash messages -/

/-- The flash store of a session; a session without one has empty queues. -/
def getFlash (sessions : List (Nat × Flash)) (sid : Nat) : Flash :=
  match sessions.find? (fun p => p.1 == sid) with
  | some p => p.2
  | none => { success := [], error := [] }

/-- Stores the flash store of a session. -/
def setFlash (sessions : List (Nat × Flash)) (sid : Nat) (f : Flash) : List (Nat × Flash) :=
  (sid, f) :: sessions.filter (fun p => p.1 != sid)

/-- The call `req.flash("success", msg)`: appends to the session's success queue. -/
def flashSuccess (st : State) (sid : Nat) (msg : String) : State :=
  let f := getFlash st.sessions sid
  { st with sessions := setFlash st.sessions sid { f with success := f.success ++ [msg] } }

/-- The middleware of lines 47-51: `req.flash("success")` and
`req.flash("error")` return and clear both queues into `res.locals`. -/
def flashLocals (st : State) (sid : Nat) : State × Locals :=
  let f := getFlash st.sessions sid
  ({ st with sessions := setFlash st.sessions sid { success := [], error := [] } },
   { success := f.success, error := f.error })

/-! ## Routing -/

/-- A literal path segment matches without regard to ASCII case. -/
def lit (s : String) (seg : String) : Bool :=
  seg.data.map Char.toLower == s.data

/-- A route parameter matches any non-empty segment. -/
def param (seg : String) : Bool :=
  seg != ""

/-- The first registered route that matches the method and the path, in the
order of registration; a HEAD request is served by the GET routes. -/
def matchRoute (m : Method) (path : List String) : Option Route :=
  let get := m == .GET || m == .HEAD
  match path with
  | [] => if get then some .home else none
  | [a] =>
    if lit "hotels" a then
      if get then some .index
      else if m == .POST then some .create
      else none
    else none
  | [a, b] =>
    if lit "hotels" a && param b then
      if get then (if lit "new" b then some .newForm else some (.showHotel b))
      else if m == .PUT then some (.update b)
      else if m == .DELETE then some (.destroy b)
      else none
    else none
  | [a, b, c] =>
    if lit "hotels" a && param b then
      if get && lit "edit" c then some (.edit b)
      else if m == .POST && lit "reviews" c then some (.createReview b)
      else none
    else none
  | [a, b, c, d] =>
    if lit "hotels" a && param b && lit "reviews" c && param d && m == .DELETE then
      some (.deleteReview b d)
    else none
  | _ => none

/-! ## Route handlers -/

/-- The error of a failed ObjectId cast. -/
def castError : Err :=
  { message := some "Cast to ObjectId failed", statusCode := none }

/-- The error of an insert with an `_id` already in the collection. -/
def duplicateKeyError : Err :=
  { message := some "E11000 duplicate key error", statusCode := none }

/-- The TypeError of reading a property of `null`. -/
def nullError (prop : String) : Err :=
  { message := some ("Cannot read properties of null (reading " ++ prop ++ ")"),
    statusCode := none }

/-- The handler of a matched route. `newId` is the ObjectId that
`new Hotel(...)` or `new Review(...)` generates during this request. The
state returned next to a thrown error holds what was done before the throw. -/
def runRoute (cfg : Config) (newId : Id) (st : State) (sid : Nat) (body : Body) :
    Route → State × Except Err Reply
  -- app.get("/")
  | .home => (st, .ok (.render "home" .empty))
  -- app.get("/hotels")
  | .index => (st, .ok (.render "hotels/index" (.hotels st.hotels)))
  -- app.get("/hotels/new")
  | .newForm => (st, .ok (.render "hotels/new" .empty))
  -- app.post("/hotels", validateHotel, ...)
  | .create =>
    match validateHotel cfg body with
    | .throw e => (st, .error e)
    | .next =>
      let newHotel : Hotel :=
        { id := newId, fields := body.hotel.getD noHotelFields, reviews := [] }
      match insertHotel st.hotels newHotel with
      | none => (st, .error duplicateKeyError)
      | some hotels =>
        let st1 := flashSuccess { st with hotels := hotels } sid "New hotel created!"
        (st1, .ok (.redirect ["hotels", cfg.showId newHotel.id]))
  -- app.get("/hotels/:id")
  | .showHotel id =>
    match cfg.castId id with
    | none => (st, .error castError)
    | some hid =>
      let hotel := (findHotel st.hotels hid).map (populate st.reviews)
      (st, .ok (.render "hotels/show" (.hotelShow hotel)))
  -- app.get("/hotels/:id/edit")
  | .edit id =>
    match cfg.castId id with
    | none => (st, .error castError)
    | some hid => (st, .ok (.render "hotels/edit" (.hotelEdit (findHotel st.hotels hid))))
  -- app.put("/hotels/:id", validateHotel, ...): the flash is written before
  -- `hotel._id` is read, so it stays queued when the hotel does not exist
  | .update id =>
    match validateHotel cfg body with
    | .throw e => (st, .error e)
    | .next =>
      match cfg.castId id with
      | none => (st, .error castError)
      | some hid =>
        let hotel := findHotel st.hotels hid
        let upd := body.hotel.getD noHotelFields
        let hotels :=
          updateHotel hid (fun d => { d with fields := setFields upd d.fields }) st.hotels
        let st1 := flashSuccess { st with hotels := hotels } sid "Successfully updated Hotel"
        match hotel with
        | none => (st1, .error (nullError "_id"))
        | some h => (st1, .ok (.redirect ["hotels", cfg.showId h.id]))
  -- app.delete("/hotels/:id"): the Hotel goes, and with it the reviews it lists
  | .destroy id =>
    match cfg.castId id with
    | none => (st, .error castError)
    | some hid =>
      let docs := deleteHotel st.hotels st.reviews hid
      let st1 :=
        flashSuccess { st with hotels := docs.1, reviews := docs.2 } sid "Deleted Hotel"
      (st1, .ok (.redirect ["hotels"]))
  -- app.post("/hotels/:id/reviews", validateReview, ...): `hotel.reviews.push`
  -- throws on a null hotel before anything is saved; `review.save()` comes
  -- before `hotel.save()`, which pushes the new id
  | .createReview id =>
    match validateReview cfg body with
    | .throw e => (st, .error e)
    | .next =>
      match cfg.castId id with
      | none => (st, .error castError)
      | some hid =>
        match findHotel st.hotels hid with
        | none => (st, .error (nullError "reviews"))
        | some hotel =>
          let review : Review := { id := newId, fields := body.review.getD noReviewFields }
          match insertReview st.reviews review with
          | none => (st, .error duplicateKeyError)
          | some reviews =>
            let push := fun (d : Hotel) => { d with reviews := d.reviews ++ [review.id] }
            let hotels := updateHotel hotel.id push st.hotels
            let st1 :=
              flashSuccess { st with hotels := hotels, reviews := reviews } sid "Created review"
            (st1, .ok (.redirect ["hotels", cfg.showId hotel.id]))
  -- app.delete("/hotels/:id/reviews/:reviewId"): `$pull` on the hotel of the
  -- path, then the Review is deleted
  | .deleteReview id reviewId =>
    match cfg.castId id, cfg.castId reviewId with
    | some hid, some rid =>
      let pull := fun (d : Hotel) => { d with reviews := d.reviews.filter (fun r => r != rid) }
      let hotels := updateHotel hid pull st.hotels
      let reviews := deleteReview st.reviews rid
      let st1 := flashSuccess { st with hotels := hotels, reviews := reviews } sid "Deleted review!"
      (st1, .ok (.redirect ["hotels", id]))
    | _, _ => (st, .error castError)

/-- The catch-all `app.all("*")` hands a 404 ExpressError to the error
handler. -/
def notFound : Err :=
  ExpressError "Page Not Found!" 404

/-- The routing stage: the handler of the first matching route, else the
catch-all. -/
def dispatch (cfg : Config) (newId : Id) (st : State) (req : Request) :
    State × Except Err Reply :=
  match matchRoute req.method req.path with
  | some r => runRoute cfg newId st req.sid req.body r
  | none => (st, .error notFound)

/-! ## Error handler and the whole application -/

/-- The message the error handler leaves on the error: the default replaces a
message that is falsy (`undefined` or the empty string). -/
def errMessage (err : Err) : String :=
  match err.message with
  | none => "Oh no, Something went wrong!"
  | some m => if m = "" then "Oh no, Something went wrong!" else m

/-- The terminal error handler: status `err.statusCode` with default 500, the
view "error", and the error with its message defaulted. -/
def errorHandler (locals : Locals) (err : Err) : Response :=
  let statusCode := err.statusCode.getD 500
  .render statusCode "error" locals (.err { err with message := some (errMessage err) })

/-- The response of a completed handler: `res.render` answers with status 200
and the locals. -/
def Reply.toResponse (locals : Locals) : Reply → Response
  | .render view data => .render 200 view locals data
  | .redirect location => .redirect location

/-- One request through the application: flash-to-locals middleware, routing
and handler, and the error handler for whatever was thrown, synchronously by a
validation middleware or inside a handler wrapped in `catchAsync` (absent
`utils/catchAsync.js`; per the spec all handler errors are funnelled to the one
error handler). -/
def handle (cfg : Config) (newId : Id) (st : State) (req : Request) : State × Response :=
  let (st1, locals) := flashLocals st req.sid
  match dispatch cfg newId st1 req with
  | (st2, .ok reply) => (st2, reply.toResponse locals)
  | (st2, .error e) => (st2, errorHandler locals e)

/-- A run of requests, each with the ObjectId it would generate: the state
after the last one. -/
def runAll (cfg : Config) (st : State) (rs : List (Id × Request)) : State :=
  rs.foldl (fun s p => (handle cfg p.1 s p.2).1) st

/-- The `res.locals` that the middleware gives a request of session `sid`
arriving in state `st`. -/
def localsAt (st : State) (sid : Nat) : Locals :=
  (flashLocals st sid).2

/-- The state without any session. -/
def dropSessions (st : State) : State :=
  { st with sessions := [] }

/-! ## Store properties -/

/-- The store's guarantee on `_id`: no two documents of a collection share
one. -/
def UniqueIds (st : State) : Prop :=
  (st.hotels.map (fun h => h.id)).Nodup ∧ (st.reviews.map (fun r => r.id)).Nodup

instance (st : State) : Decidable (UniqueIds st) := by
  unfold UniqueIds; infer_instance

/-- The referential invariant: every id in a Hotel's `reviews` is the `_id`
of a Review document of the store. -/
def RefInv (st : State) : Prop :=
  ∀ h ∈ st.hotels, ∀ r ∈ h.reviews, ∃ d ∈ st.reviews, d.id = r

instance (st : State) : Decidable (RefInv st) := by
  unfold RefInv; infer_instance

/-- The reviews a delete request removes are referenced by no other Hotel.
For a delete-review request with castable ids, the review id is listed by no
Hotel other than the one the request names; for a delete-hotel request with a
castable id, no review that the named Hotel lists is listed by another Hotel.
Every other request satisfies this trivially. -/
def OwnReview (cfg : Config) (st : State) (req : Request) : Prop :=
  match matchRoute req.method req.path with
  | some (.deleteReview id reviewId) =>
    match cfg.castId id, cfg.castId reviewId with
    | some hid, some rid => ∀ h ∈ st.hotels, h.id ≠ hid → rid ∉ h.reviews
    | _, _ => True
  | some (.destroy id) =>
    match cfg.castId id with
    | some hid =>
      ∀ h ∈ st.hotels, h.id = hid →
        ∀ h2 ∈ st.hotels, h2.id ≠ hid → ∀ r ∈ h.reviews, r ∉ h2.reviews
    | none => True
  | _ => True

instance (cfg : Config) (st : State) (req : Request) : Decidable (OwnReview cfg st req) := by
  unfold OwnReview
  split
  · split <;> infer_instance
  · split <;> infer_instance
  · infer_instance

/-! ## Sample collaborators and inputs -/

/-- Modelled from the spec: the hotel schema of `schemas.js` (absent): the
payload under `hotel` is required, as are its fields name, location, price
(at least 0), description and image; the details list every violated field. -/
def hotelSchema (body : Body) : Option (List Detail) :=
  match body.hotel with
  | none => some [{ message := "hotel is required" }]
  | some f =>
    let ds : List Detail :=
      (if f.name.isNone then [{ message := "hotel.name is required" }] else []) ++
      (if f.location.isNone then [{ message := "hotel.location is required" }] else []) ++
      (match f.price with
        | none => [{ message := "hotel.price is required" }]
        | some p =>
          if p < 0 then [{ message := "hotel.price must be greater than or equal to 0" }]
          else []) ++
      (if f.description.isNone then [{ message := "hotel.description is required" }] else []) ++
      (if f.image.isNone then [{ message := "hotel.image is required" }] else [])
    if ds.isEmpty then none else some ds

/-- Modelled from the spec: the review schema of `schemas.js` (absent): the
payload under `review` is required, with a body and a rating within the
bounds `lo` and `hi`. -/
def reviewSchema (lo hi : Int) (body : Body) : Option (List Detail) :=
  match body.review with
  | none => some [{ message := "review is required" }]
  | some f =>
    let ds : List Detail :=
      (if f.body.isNone then [{ message := "review.body is required" }] else []) ++
      (match f.rating with
        | none => [{ message := "review.rating is required" }]
        | some r =>
          if r < lo ∨ hi < r then [{ message := "review.rating is out of bounds" }] else [])
    if ds.isEmpty then none else some ds

/-- The value of a hexadecimal digit. -/
def hexDigit (c : Char) : Option Nat :=
  if 48 ≤ c.toNat ∧ c.toNat ≤ 57 then some (c.toNat - 48)
  else if 97 ≤ c.toNat ∧ c.toNat ≤ 102 then some (c.toNat - 87)
  else if 65 ≤ c.toNat ∧ c.toNat ≤ 70 then some (c.toNat - 55)
  else none

/-- Reads a run of hexadecimal digits. -/
def parseHex : List Char → Nat → Option Nat
  | [], acc => some acc
  | c :: cs, acc =>
    match hexDigit c with
    | some d => parseHex cs (acc * 16 + d)
    | none => none

/-- A sample cast: an ObjectId is written as 24 hexadecimal digits. -/
def parseId (s : String) : Option Id :=
  if s.data.length = 24 then parseHex s.data 0 else none

/-- The lower-case hexadecimal digit of a value below 16. -/
def hexChar (d : Nat) : Char :=
  if d < 10 then Char.ofNat (48 + d) else Char.ofNat (87 + d)

/-- A sample print: the 24 hexadecimal digits of an ObjectId. -/
def printId (n : Id) : String :=
  String.mk ((List.range 24).map (fun i => hexChar (n / 16 ^ (23 - i) % 16)))

/-- A sample configuration: the schemas of the spec with ratings from 1 to 5
and ObjectIds written as 24 hexadecimal digits. -/
def sampleConfig : Config :=
  { hotelSchema := hotelSchema, reviewSchema := reviewSchema 1 5,
    castId := parseId, showId := printId }

/-- The valid hotel payload of the spec's example. -/
def innFields : HotelFields :=
  { name := some "Inn", location := some "X", price := some 10,
    description := some "d", image := some "i" }

/-- A hotel payload without a name. -/
def namelessFields : HotelFields :=
  { innFields with name := none }

/-- A hotel payload without name and location and with a negative price. -/
def badFields : HotelFields :=
  { name := none, location := none, price := some (-1), description := some "d", image := some "i" }

/-- A valid review payload. -/
def goodReview : ReviewFields :=
  { body := some "fine", rating := some 4 }

/-- A store with two hotels; hotel 1 lists reviews 10 and 11, hotel 2 lists
review 20; session 7 has one queued success message. -/
def sampleState : State :=
  { hotels := [{ id := 1, fields := innFields, reviews := [10, 11] },
               { id := 2, fields := innFields, reviews := [20] }],
    reviews := [{ id := 10, fields := goodReview }, { id := 11, fields := goodReview },
                { id := 20, fields := goodReview }],
    sessions := [(7, { success := ["old"], error := [] })] }

/-- A store where hotels 1 and 2 both list review 10. -/
def sharedState : State :=
  { hotels := [{ id := 1, fields := innFields, reviews := [10] },
               { id := 2, fields := innFields, reviews := [10] }],
    reviews := [{ id := 10, fields := goodReview }],
    sessions := [] }

/-- A request of session 7. -/
def mkReq (m : Method) (path : List String) (body : Body) : Request :=
  { method := m, path := path, body := body, sid := 7 }

/-- A form body with a hotel payload. -/
def hotelBody (f : HotelFields) : Body :=
  { hotel := some f, review := none }

/-- A form body with a review payload. -/
def reviewBody (f : ReviewFields) : Body :=
  { hotel := none, review := some f }

/-- An empty form body. -/
def noBody : Body :=
  { hotel := none, review := none }

/-- The path segment of the ObjectId 2. -/
def hotel2Id : String := "000000000000000000000002"

/-- The path segment of the ObjectId 3. -/
def hotel3Id : String := "000000000000000000000003"

/-- The path segment of the ObjectId 9. -/
def hotel9Id : String := "000000000000000000000009"

/-- The path segment of the ObjectId 10. -/
def review10Id : String := "00000000000000000000000a"

/-- The path segment of the ObjectId 20. -/
def review20Id : String := "000000000000000000000014"

/-- The details the sample hotel schema reports for `badFields`. -/
def badDetails : List Detail :=
  [{ message := "hotel.name is required" }, { message := "hotel.location is required" },
   { message := "hotel.price must be greater than or equal to 0" }]

/-- A review payload without body and with a rating out of bounds. -/
def badReview : ReviewFields :=
  { body := none, rating := some 9 }

/-- The details the sample review schema reports for `badReview`. -/
def badReviewDetails : List Detail :=
  [{ message := "review.body is required" }, { message := "review.rating is out of bounds" }]

/-- POST /hotels with the valid payload of the spec's example. -/
def postInn : Request :=
  mkReq .POST ["hotels"] (hotelBody innFields)

/-- POST /hotels with a payload without a name. -/
def postNameless : Request :=
  mkReq .POST ["hotels"] (hotelBody namelessFields)

/-- PATCH /hotels, which no route serves. -/
def patchHotels : Request :=
  mkReq .PATCH ["hotels"] noBody

/-- GET of the detail page of the hotel with id 3. -/
def getHotel3 : Request :=
  mkReq .GET ["hotels", hotel3Id] noBody

/-- POST of a valid review to hotel 2. -/
def postReviewTo2 : Request :=
  mkReq .POST ["hotels", hotel2Id, "reviews"] (reviewBody goodReview)

/-- POST of a valid review to hotel 9, which the sample store does not hold. -/
def postReviewTo9 : Request :=
  mkReq .POST ["hotels", hotel9Id, "reviews"] (reviewBody goodReview)

/-- DELETE of review 20 (hexadecimal 14) through hotel 2, which lists it. -/
def deleteReview20Of2 : Request :=
  mkReq .DELETE ["hotels", hotel2Id, "reviews", review20Id] noBody

/-- DELETE of review 10 (hexadecimal a) through hotel 2, while it is hotel 1
that lists it. -/
def deleteReview10Via2 : Request :=
  mkReq .DELETE ["hotels", hotel2Id, "reviews", review10Id] noBody

/-- DELETE of hotel 2. -/
def deleteHotel2 : Request :=
  mkReq .DELETE ["hotels", hotel2Id] noBody

/-- A GET of the hotel list by session 8. -/
def listBy8 : Request :=
  { method := .GET, path := ["hotels"], body := noBody, sid := 8 }

/-! ## Basic facts -/

theorem intercalate_go_eq (sep : String) (t : List String) :
    ∀ acc b, String.intercalate.go acc sep (b :: t) = acc ++ sep ++ join (b :: t) sep := by
  induction t with
  | nil => intro acc b; simp [String.intercalate.go, join]
  | cons c t ih =>
    intro acc b
    rw [String.intercalate.go, ih]
    simp [join, String.append_assoc]

theorem join_eq_intercalate (l : List String) (sep : String) :
    join l sep = sep.intercalate l := by
  cases l with
  | nil => rfl
  | cons a t =>
    cases t with
    | nil => simp [join, String.intercalate, String.intercalate.go]
    | cons b t2 =>
      rw [String.intercalate, intercalate_go_eq]
      simp [join]

theorem infix_join (sep : String) (l : List String) :
    ∀ m ∈ l, m.data <:+: (join l sep).data := by
  induction l with
  | nil => intro m hm; cases hm
  | cons a t ih =>
    intro m hm
    cases t with
    | nil =>
      simp only [List.mem_singleton] at hm
      subst hm
      exact List.infix_refl _
    | cons b t2 =>
      simp only [join, String.data_append]
      rcases List.mem_cons.mp hm with h | h
      · subst h
        exact ⟨[], sep.data ++ (join (b :: t2) sep).data, by simp⟩
      · obtain ⟨p, q, hpq⟩ := ih m h
        exact ⟨a.data ++ sep.data ++ p, q, by simp [← hpq]⟩

theorem handle_eq (cfg : Config) (newId : Id) (st : State) (req : Request) :
    handle cfg newId st req =
      ((dispatch cfg newId (flashLocals st req.sid).1 req).1,
        match (dispatch cfg newId (flashLocals st req.sid).1 req).2 with
        | .ok reply => reply.toResponse (flashLocals st req.sid).2
        | .error e => errorHandler (flashLocals st req.sid).2 e) := by
  unfold handle
  simp only
  split <;> rename_i h <;> simp [h]

/-! ## Validation and error translation -/

/-- C1: when the hotel schema (resp. the review schema) rejects a body with
details `details`, `validateHotel` (resp. `validateReview`) does not call
`next`: it throws an ExpressError of status 400 whose message is the messages
of all the details, in order, separated by ","; the message of every detail
occurs in it. -/
theorem validate_throws_joined_messages (cfg : Config) (body : Body) (details : List Detail) :
    (cfg.hotelSchema body = some details →
      validateHotel cfg body ≠ .next ∧
      validateHotel cfg body =
        .throw { message := some (",".intercalate (details.map (fun d => d.message))),
                 statusCode := some 400 } ∧
      ∀ d ∈ details,
        List.IsInfix d.message.data (",".intercalate (details.map (fun d => d.message))).data) ∧
    (cfg.reviewSchema body = some details →
      validateReview cfg body ≠ .next ∧
      validateReview cfg body =
        .throw { message := some (",".intercalate (details.map (fun d => d.message))),
                 statusCode := some 400 } ∧
      ∀ d ∈ details,
        List.IsInfix d.message.data (",".intercalate (details.map (fun d => d.message))).data) := by
  have hin : ∀ d ∈ details,
      List.IsInfix d.message.data (",".intercalate (details.map (fun d => d.message))).data := by
    intro d hd
    rw [← join_eq_intercalate]
    exact infix_join "," _ _ (List.mem_map_of_mem (fun d => d.message) hd)
  constructor
  · intro h
    have hv : validateHotel cfg body =
        .throw { message := some (",".intercalate (details.map (fun d => d.message))),
                 statusCode := some 400 } := by
      simp [validateHotel, h, ExpressError, join_eq_intercalate]
    exact ⟨by rw [hv]; simp, hv, hin⟩
  · intro h
    have hv : validateReview cfg body =
        .throw { message := some (",".intercalate (details.map (fun d => d.message))),
                 statusCode := some 400 } := by
      simp [validateReview, h, ExpressError, join_eq_intercalate]
    exact ⟨by rw [hv]; simp, hv, hin⟩

/-- The hotel schema of the sample configuration rejects a payload without
name and location and with a negative price with three details, and
`validateHotel` throws the three messages joined; likewise `validateReview`
on a review without body and with rating 9. -/
theorem validate_throws_joined_messages_witness :
    (sampleConfig.hotelSchema (hotelBody badFields) = some badDetails ∧
      validateHotel sampleConfig (hotelBody badFields) =
        .throw { message := some ("hotel.name is required,hotel.location is required," ++
                   "hotel.price must be greater than or equal to 0"),
                 statusCode := some 400 }) ∧
    (sampleConfig.reviewSchema (reviewBody badReview) = some badReviewDetails ∧
      validateReview sampleConfig (reviewBody badReview) =
        .throw { message := some "review.body is required,review.rating is out of bounds",
                 statusCode := some 400 }) :=
  ⟨⟨by decide,
      (((validate_throws_joined_messages sampleConfig (hotelBody badFields) badDetails).1
          (by decide)).2.1).trans (by decide)⟩,
   ⟨by decide,
      (((validate_throws_joined_messages sampleConfig (reviewBody badReview)
          badReviewDetails).2 (by decide)).2.1).trans (by decide)⟩⟩

/-- C3: the terminal error handler renders the view "error" with the status
of the error's `statusCode`, or 500 when it has none, and with the error's
message when it is a non-empty string, or the default message when it is
absent or empty; and whatever a handler throws reaches this handler. -/
theorem error_handler_status_and_message :
    (∀ (locals : Locals) (err : Err), ∃ status msg,
      errorHandler locals err =
        .render status "error" locals
          (.err { message := some msg, statusCode := err.statusCode }) ∧
      (∀ c, err.statusCode = some c → status = c) ∧
      (err.statusCode = none → status = 500) ∧
      (∀ m, err.message = some m → m ≠ "" → msg = m) ∧
      (err.message = none ∨ err.message = some "" → msg = "Oh no, Something went wrong!")) ∧
    (∀ (cfg : Config) (newId : Id) (st st2 : State) (req : Request) (err : Err),
      dispatch cfg newId (flashLocals st req.sid).1 req = (st2, .error err) →
      (handle cfg newId st req).2 = errorHandler (flashLocals st req.sid).2 err) := by
  constructor
  · intro locals err
    refine ⟨err.statusCode.getD 500, errMessage err, rfl, ?_, ?_, ?_, ?_⟩
    · intro c hc; simp [hc]
    · intro hc; simp [hc]
    · intro m hm hne; simp [errMessage, hm, hne]
    · rintro (hm | hm) <;> simp [errMessage, hm]
  · intro cfg newId st st2 req err h
    rw [handle_eq, h]

/-- An error without status code and without message is rendered with status
500 and the default message; one with status 404 and a message keeps both. -/
theorem error_handler_status_and_message_witness :
    errorHandler { success := [], error := [] } { message := none, statusCode := none } =
      .render 500 "error" { success := [], error := [] }
        (.err { message := some "Oh no, Something went wrong!", statusCode := none }) ∧
    errorHandler { success := [], error := [] } { message := some "gone", statusCode := some 404 } =
      .render 404 "error" { success := [], error := [] }
        (.err { message := some "gone", statusCode := some 404 }) := by
  constructor
  · obtain ⟨status, msg, h, _, hs, _, hm⟩ :=
      error_handler_status_and_message.1 { success := [], error := [] }
        { message := none, statusCode := none }
    rw [h, hs rfl, hm (Or.inl rfl)]
  · obtain ⟨status, msg, h, hs, _, hm, _⟩ :=
      error_handler_status_and_message.1 { success := [], error := [] }
        { message := some "gone", statusCode := some 404 }
    rw [h, hs 404 rfl, hm "gone" rfl (by decide)]

/-- C4: a request that matches none of the ten routes is answered with status
404, the view "error" and the message "Page Not Found!"; both collections
are as before. -/
theorem unmatched_route_not_found (cfg : Config) (newId : Id) (st : State) (req : Request)
    (h : matchRoute req.method req.path = none) :
    (handle cfg newId st req).2 =
      .render 404 "error" (flashLocals st req.sid).2
        (.err { message := some "Page Not Found!", statusCode := some 404 }) ∧
    (handle cfg newId st req).1.hotels = st.hotels ∧
    (handle cfg newId st req).1.reviews = st.reviews := by
  rw [handle_eq]
  simp [dispatch, h, notFound, ExpressError, errorHandler, errMessage, flashLocals]

/-- A PATCH of /hotels matches no route and is answered 404 on the sample
store. -/
theorem unmatched_route_not_found_witness :
    matchRoute patchHotels.method patchHotels.path = none ∧
    (handle sampleConfig 3 sampleState patchHotels).2 =
      .render 404 "error" { success := ["old"], error := [] }
        (.err { message := some "Page Not Found!", statusCode := some 404 }) ∧
    (handle sampleConfig 3 sampleState patchHotels).1.hotels = sampleState.hotels ∧
    (handle sampleConfig 3 sampleState patchHotels).1.reviews = sampleState.reviews :=
  ⟨by decide, unmatched_route_not_found sampleConfig 3 sampleState patchHotels (by decide)⟩

/-! ## Sessions -/

theorem getFlash_setFlash_same (ss : List (Nat × Flash)) (sid : Nat) (f : Flash) :
    getFlash (setFlash ss sid f) sid = f := by
  simp [getFlash, setFlash]

theorem find_filter_ne (ss : List (Nat × Flash)) (sid sid2 : Nat) (h : sid2 ≠ sid) :
    (ss.filter (fun p => p.1 != sid)).find? (fun p => p.1 == sid2) =
      ss.find? (fun p => p.1 == sid2) := by
  induction ss with
  | nil => rfl
  | cons p t ih =>
    by_cases hp : p.1 = sid
    · have h1 : (p.1 != sid) = false := by simp [hp]
      have h2 : (p.1 == sid2) = false := by
        simp only [hp, beq_eq_false_iff_ne, ne_eq]
        exact fun e => h e.symm
      rw [List.filter_cons, List.find?_cons]
      simp only [h1, h2]
      exact ih
    · have h1 : (p.1 != sid) = true := by simp [hp]
      rw [List.filter_cons]
      simp only [h1, if_true, List.find?_cons, ih]

theorem getFlash_setFlash_other (ss : List (Nat × Flash)) (sid sid2 : Nat) (f : Flash)
    (h : sid2 ≠ sid) : getFlash (setFlash ss sid f) sid2 = getFlash ss sid2 := by
  have hne : ¬ sid = sid2 := fun e => h e.symm
  simp [getFlash, setFlash, List.find?_cons, hne, find_filter_ne ss sid sid2 h]

/-! ## Rejected payloads -/

/-- C2: a create-hotel or update-hotel request whose body the hotel schema
rejects, and a create-review request whose body the review schema rejects, is
answered with the 400 error page carrying the joined messages; the Hotel and
Review collections after the request are those before it, and the state has
changed by the flash read alone. -/
theorem rejected_payload_changes_nothing (cfg : Config) (newId : Id) (st : State)
    (req : Request) (r : Route) (details : List Detail)
    (hr : matchRoute req.method req.path = some r)
    (hv : ((r = .create ∨ ∃ id, r = .update id) ∧ cfg.hotelSchema req.body = some details) ∨
          ((∃ id, r = .createReview id) ∧ cfg.reviewSchema req.body = some details)) :
    (handle cfg newId st req).1.hotels = st.hotels ∧
    (handle cfg newId st req).1.reviews = st.reviews ∧
    (handle cfg newId st req).1 = (flashLocals st req.sid).1 ∧
    ∃ msg, (handle cfg newId st req).2 =
        .render 400 "error" (flashLocals st req.sid).2
          (.err { message := some msg, statusCode := some 400 }) ∧
      (",".intercalate (details.map (fun d => d.message)) ≠ "" →
        msg = ",".intercalate (details.map (fun d => d.message))) := by
  have hd : dispatch cfg newId (flashLocals st req.sid).1 req =
      ((flashLocals st req.sid).1,
        .error (ExpressError (",".intercalate (details.map (fun d => d.message))) 400)) := by
    rcases hv with ⟨hroute, hs⟩ | ⟨hroute, hs⟩
    · rcases hroute with rfl | ⟨id, rfl⟩ <;>
        simp [dispatch, hr, runRoute, validateHotel, hs, join_eq_intercalate]
    · obtain ⟨id, rfl⟩ := hroute
      simp [dispatch, hr, runRoute, validateReview, hs, join_eq_intercalate]
  rw [handle_eq, hd]
  refine ⟨rfl, rfl, rfl,
    errMessage (ExpressError (",".intercalate (details.map (fun d => d.message))) 400), ?_, ?_⟩
  · simp [errorHandler, ExpressError]
  · intro hne
    simp [errMessage, ExpressError, hne]

/-- On the sample store, creating a hotel from a payload without a name is
answered 400 with a message naming "name", and no record is created. -/
theorem rejected_payload_changes_nothing_witness :
    (matchRoute postNameless.method postNameless.path = some .create ∧
      sampleConfig.hotelSchema postNameless.body =
        some [{ message := "hotel.name is required" }]) ∧
    (handle sampleConfig 3 sampleState postNameless).1.hotels = sampleState.hotels ∧
    (handle sampleConfig 3 sampleState postNameless).1.reviews = sampleState.reviews ∧
    (handle sampleConfig 3 sampleState postNameless).2 =
      .render 400 "error" { success := ["old"], error := [] }
        (.err { message := some "hotel.name is required", statusCode := some 400 }) := by
  have h := rejected_payload_changes_nothing sampleConfig 3 sampleState postNameless .create
    [{ message := "hotel.name is required" }] (by decide) (Or.inl ⟨Or.inl rfl, by decide⟩)
  obtain ⟨h1, h2, _, msg, h3, h4⟩ := h
  refine ⟨⟨by decide, by decide⟩, h1, h2, ?_⟩
  rw [h3, h4 (by decide)]
  decide

/-! ## Store lemmas -/

theorem findHotel_eq_none_of_fresh (hs : List Hotel) (n : Id) (h : ∀ d ∈ hs, d.id ≠ n) :
    findHotel hs n = none := by
  simp only [findHotel, List.find?_eq_none]
  intro d hd
  simpa using h d hd

theorem findReview_eq_none_of_fresh (rs : List Review) (n : Id) (h : ∀ d ∈ rs, d.id ≠ n) :
    findReview rs n = none := by
  simp only [findReview, List.find?_eq_none]
  intro d hd
  simpa using h d hd

theorem insertHotel_fresh (hs : List Hotel) (d : Hotel) (h : ∀ x ∈ hs, x.id ≠ d.id) :
    insertHotel hs d = some (hs ++ [d]) := by
  have : hs.any (fun x => x.id == d.id) = false := by
    rw [List.any_eq_false]
    intro x hx
    simpa using h x hx
  simp [insertHotel, this]

theorem insertReview_fresh (rs : List Review) (d : Review) (h : ∀ x ∈ rs, x.id ≠ d.id) :
    insertReview rs d = some (rs ++ [d]) := by
  have : rs.any (fun x => x.id == d.id) = false := by
    rw [List.any_eq_false]
    intro x hx
    simpa using h x hx
  simp [insertReview, this]

theorem findHotel_append_fresh (hs : List Hotel) (d : Hotel) (h : ∀ x ∈ hs, x.id ≠ d.id) :
    findHotel (hs ++ [d]) d.id = some d := by
  have hn := findHotel_eq_none_of_fresh hs d.id h
  simp only [findHotel] at hn ⊢
  simp [List.find?_append, hn]

theorem findReview_append_fresh (rs : List Review) (d : Review) (h : ∀ x ∈ rs, x.id ≠ d.id) :
    findReview (rs ++ [d]) d.id = some d := by
  have hn := findReview_eq_none_of_fresh rs d.id h
  simp only [findReview] at hn ⊢
  simp [List.find?_append, hn]

theorem findHotel_id (hs : List Hotel) (n : Id) (h : Hotel) (hf : findHotel hs n = some h) :
    h.id = n := by
  have := List.find?_some hf
  simpa using this

theorem findHotel_updateHotel (hs : List Hotel) (n : Id) (f : Hotel → Hotel) (h : Hotel)
    (hid : ∀ d, (f d).id = d.id) (hf : findHotel hs n = some h) :
    findHotel (updateHotel n f hs) n = some (f h) := by
  induction hs with
  | nil => simp [findHotel] at hf
  | cons d t ih =>
    by_cases hd : d.id = n
    · have : h = d := by simpa [findHotel, List.find?_cons, hd] using hf.symm
      subst this
      simp [updateHotel, findHotel, List.find?_cons, hd, hid]
    · have hf2 : findHotel t n = some h := by
        simpa [findHotel, List.find?_cons, hd] using hf
      have := ih hf2
      simp only [findHotel] at this
      simp [updateHotel, findHotel, List.find?_cons, hd, this]

theorem flashLocals_hotels (st : State) (sid : Nat) : (flashLocals st sid).1.hotels = st.hotels :=
  rfl

theorem flashLocals_reviews (st : State) (sid : Nat) :
    (flashLocals st sid).1.reviews = st.reviews :=
  rfl

theorem getFlash_flashLocals (st : State) (sid : Nat) :
    getFlash (flashLocals st sid).1.sessions sid = { success := [], error := [] } := by
  simp [flashLocals, getFlash_setFlash_same]

/-- The response of a show request: the hotel with the cast id, populated. -/
theorem handle_show (cfg : Config) (newId : Id) (st : State) (req : Request) (id : String)
    (hid : Id) (hr : matchRoute req.method req.path = some (.showHotel id))
    (hc : cfg.castId id = some hid) :
    (handle cfg newId st req).2 =
      .render 200 "hotels/show" (flashLocals st req.sid).2
        (.hotelShow ((findHotel st.hotels hid).map (populate st.reviews))) := by
  rw [handle_eq]
  simp [dispatch, hr, runRoute, hc, Reply.toResponse, flashLocals_hotels, flashLocals_reviews]

/-! ## Creating a hotel -/

/-- C7: a create-hotel request whose body passes the hotel schema, with a
fresh ObjectId, appends exactly one Hotel record carrying the payload's fields
and no reviews, leaves every other record alone, queues the success message
"New hotel created!" for the session and redirects to /hotels/<new id>, where
a show request then renders the new record. -/
theorem create_hotel_adds_one_record (cfg : Config) (newId : Id) (st : State) (req : Request)
    (payload : HotelFields)
    (hr : matchRoute req.method req.path = some .create)
    (hv : cfg.hotelSchema req.body = none)
    (hp : req.body.hotel = some payload)
    (hfresh : ∀ h ∈ st.hotels, h.id ≠ newId) :
    (handle cfg newId st req).1.hotels =
      st.hotels ++ [{ id := newId, fields := payload, reviews := [] }] ∧
    (handle cfg newId st req).1.reviews = st.reviews ∧
    getFlash (handle cfg newId st req).1.sessions req.sid =
      { success := ["New hotel created!"], error := [] } ∧
    (handle cfg newId st req).2 = .redirect ["hotels", cfg.showId newId] ∧
    (∀ (newId2 : Id) (req2 : Request),
      matchRoute req2.method req2.path = some (.showHotel (cfg.showId newId)) →
      cfg.castId (cfg.showId newId) = some newId →
      ∃ locals, (handle cfg newId2 (handle cfg newId st req).1 req2).2 =
        .render 200 "hotels/show" locals
          (.hotelShow (some { id := newId, fields := payload, reviews := [] }))) := by
  have hins := insertHotel_fresh st.hotels { id := newId, fields := payload, reviews := [] } hfresh
  have hd : dispatch cfg newId (flashLocals st req.sid).1 req =
      (flashSuccess { (flashLocals st req.sid).1 with
          hotels := st.hotels ++ [{ id := newId, fields := payload, reviews := [] }] }
          req.sid "New hotel created!",
        .ok (.redirect ["hotels", cfg.showId newId])) := by
    simp [dispatch, hr, runRoute, validateHotel, hv, hp, flashLocals_hotels, hins]
  have hst : (handle cfg newId st req).1 =
      flashSuccess { (flashLocals st req.sid).1 with
          hotels := st.hotels ++ [{ id := newId, fields := payload, reviews := [] }] }
          req.sid "New hotel created!" := by
    rw [handle_eq, hd]
  refine ⟨?_, ?_, ?_, ?_, ?_⟩
  · rw [hst]; rfl
  · rw [hst]; rfl
  · rw [hst]
    simp [flashSuccess, getFlash_setFlash_same, flashLocals]
  · rw [handle_eq, hd]; rfl
  · intro newId2 req2 hr2 hc
    refine ⟨(flashLocals (handle cfg newId st req).1 req2.sid).2, ?_⟩
    rw [handle_show cfg newId2 _ req2 _ newId hr2 hc, hst]
    have hfind := findHotel_append_fresh st.hotels
      { id := newId, fields := payload, reviews := [] } hfresh
    simp only [flashSuccess] at *
    simp [hfind, populate]

/-- On the sample store, creating the hotel of the spec's example with the
fresh id 3 appends that record and redirects to /hotels/3. -/
theorem create_hotel_adds_one_record_witness :
    (matchRoute postInn.method postInn.path = some .create ∧
      sampleConfig.hotelSchema postInn.body = none ∧
      postInn.body.hotel = some innFields ∧
      (∀ h ∈ sampleState.hotels, h.id ≠ 3)) ∧
    (handle sampleConfig 3 sampleState postInn).1.hotels =
      sampleState.hotels ++ [{ id := 3, fields := innFields, reviews := [] }] ∧
    (handle sampleConfig 3 sampleState postInn).1.reviews = sampleState.reviews ∧
    getFlash (handle sampleConfig 3 sampleState postInn).1.sessions 7 =
      { success := ["New hotel created!"], error := [] } ∧
    (handle sampleConfig 3 sampleState postInn).2 = .redirect ["hotels", hotel3Id] := by
  have h := create_hotel_adds_one_record sampleConfig 3 sampleState postInn innFields
    (by decide) (by decide) rfl (by decide)
  exact ⟨⟨by decide, by decide, rfl, by decide⟩, h.1, h.2.1, h.2.2.1, h.2.2.2.1⟩

/-! ## Creating a review -/

/-- C6: a successful create-review request (one answered with a redirect) for an
existing hotel H, with a body that passes the review schema, appends a Review
record with the payload, appends its id at the end of H's `reviews` with the
earlier entries kept in order, redirects to H's detail page, and a show request
for H afterwards renders H with that review last in the expanded list. -/
theorem create_review_appends_reference (cfg : Config) (newId : Id) (st : State)
    (req : Request) (id : String) (hid : Id) (hotel : Hotel) (payload : ReviewFields)
    (hr : matchRoute req.method req.path = some (.createReview id))
    (hv : cfg.reviewSchema req.body = none)
    (hp : req.body.review = some payload)
    (hc : cfg.castId id = some hid)
    (hh : findHotel st.hotels hid = some hotel)
    (hok : ∃ location, (handle cfg newId st req).2 = .redirect location) :
    (handle cfg newId st req).1.reviews = st.reviews ++ [{ id := newId, fields := payload }] ∧
    findHotel (handle cfg newId st req).1.hotels hid =
      some { hotel with reviews := hotel.reviews ++ [newId] } ∧
    (handle cfg newId st req).2 = .redirect ["hotels", cfg.showId hid] ∧
    (∀ (newId2 : Id) (req2 : Request) (id2 : String),
      matchRoute req2.method req2.path = some (.showHotel id2) →
      cfg.castId id2 = some hid →
      ∃ locals front, (handle cfg newId2 (handle cfg newId st req).1 req2).2 =
        .render 200 "hotels/show" locals
          (.hotelShow (some { id := hid, fields := hotel.fields,
                              reviews := front ++ [{ id := newId, fields := payload }] }))) := by
  have hidEq : hotel.id = hid := findHotel_id _ _ _ hh
  have hfresh : ∀ d ∈ st.reviews, d.id ≠ newId := by
    by_contra hcon
    push_neg at hcon
    obtain ⟨d, hd, hdn⟩ := hcon
    have hany : st.reviews.any (fun x => x.id == newId) = true := by
      rw [List.any_eq_true]
      exact ⟨d, hd, by simpa using hdn⟩
    have hnone : insertReview st.reviews { id := newId, fields := payload } = none := by
      simp [insertReview, hany]
    obtain ⟨location, hloc⟩ := hok
    rw [handle_eq] at hloc
    simp [dispatch, hr, runRoute, validateReview, hv, hp, hc, flashLocals_hotels,
      flashLocals_reviews, hh, hnone, errorHandler] at hloc
  have hins := insertReview_fresh st.reviews { id := newId, fields := payload } hfresh
  have hd : dispatch cfg newId (flashLocals st req.sid).1 req =
      (flashSuccess { (flashLocals st req.sid).1 with
          hotels := updateHotel hid (fun d => { d with reviews := d.reviews ++ [newId] }) st.hotels,
          reviews := st.reviews ++ [{ id := newId, fields := payload }] }
          req.sid "Created review",
        .ok (.redirect ["hotels", cfg.showId hid])) := by
    simp [dispatch, hr, runRoute, validateReview, hv, hp, hc, flashLocals_hotels,
      flashLocals_reviews, hh, hins, hidEq]
  have hst : (handle cfg newId st req).1 =
      flashSuccess { (flashLocals st req.sid).1 with
          hotels := updateHotel hid (fun d => { d with reviews := d.reviews ++ [newId] }) st.hotels,
          reviews := st.reviews ++ [{ id := newId, fields := payload }] }
          req.sid "Created review" := by
    rw [handle_eq, hd]
  have hfind : findHotel
      (updateHotel hid (fun d => { d with reviews := d.reviews ++ [newId] }) st.hotels) hid =
      some { hotel with reviews := hotel.reviews ++ [newId] } :=
    findHotel_updateHotel st.hotels hid _ hotel (fun _ => rfl) hh
  refine ⟨?_, ?_, ?_, ?_⟩
  · rw [hst]; rfl
  · rw [hst]; exact hfind
  · rw [handle_eq, hd]; rfl
  · intro newId2 req2 id2 hr2 hc2
    refine ⟨(flashLocals (handle cfg newId st req).1 req2.sid).2,
      hotel.reviews.filterMap
        (findReview (st.reviews ++ [{ id := newId, fields := payload }])), ?_⟩
    rw [handle_show cfg newId2 _ req2 id2 hid hr2 hc2, hst]
    have hnew := findReview_append_fresh st.reviews { id := newId, fields := payload } hfresh
    simp only [flashSuccess] at *
    simp [hfind, populate, List.filterMap_append, hnew, hidEq]

/-- On the sample store, a valid review for hotel 2 with the new id 30 is
stored, listed last by hotel 2 and shown on its detail page. -/
theorem create_review_appends_reference_witness :
    (matchRoute postReviewTo2.method postReviewTo2.path = some (.createReview hotel2Id) ∧
      sampleConfig.reviewSchema postReviewTo2.body = none ∧
      postReviewTo2.body.review = some goodReview ∧
      sampleConfig.castId hotel2Id = some 2 ∧
      findHotel sampleState.hotels 2 = some { id := 2, fields := innFields, reviews := [20] } ∧
      (∃ location, (handle sampleConfig 30 sampleState postReviewTo2).2 = .redirect location)) ∧
    (handle sampleConfig 30 sampleState postReviewTo2).1.reviews =
      sampleState.reviews ++ [{ id := 30, fields := goodReview }] ∧
    findHotel (handle sampleConfig 30 sampleState postReviewTo2).1.hotels 2 =
      some { id := 2, fields := innFields, reviews := [20, 30] } ∧
    (handle sampleConfig 30 sampleState postReviewTo2).2 = .redirect ["hotels", hotel2Id] := by
  have h := create_review_appends_reference sampleConfig 30 sampleState postReviewTo2
    hotel2Id 2 { id := 2, fields := innFields, reviews := [20] } goodReview
    (by decide) (by decide) rfl (by decide) (by decide) ⟨["hotels", hotel2Id], by decide⟩
  exact ⟨⟨by decide, by decide, rfl, by decide, by decide, ⟨["hotels", hotel2Id], by decide⟩⟩,
    h.1, h.2.1, h.2.2.1⟩

/-! ## Deleting a review -/

theorem mem_updateHotel (n : Id) (f : Hotel → Hotel) (hs : List Hotel)
    (hn : (hs.map (fun h => h.id)).Nodup) (x : Hotel) (hx : x ∈ updateHotel n f hs) :
    (x ∈ hs ∧ x.id ≠ n) ∨ ∃ h ∈ hs, h.id = n ∧ x = f h := by
  induction hs with
  | nil => simp [updateHotel] at hx
  | cons d t ih =>
    rw [List.map_cons, List.nodup_cons] at hn
    by_cases hd : d.id = n
    · simp only [updateHotel, hd, beq_self_eq_true, if_true, List.mem_cons] at hx
      rcases hx with rfl | hx
      · exact Or.inr ⟨d, List.mem_cons_self _ _, hd, rfl⟩
      · left
        refine ⟨List.mem_cons_of_mem _ hx, ?_⟩
        intro hxn
        apply hn.1
        rw [hd, ← hxn]
        exact List.mem_map_of_mem (fun h => h.id) hx
    · have hb : (d.id == n) = false := by simpa using hd
      rw [updateHotel] at hx
      simp only [hb, Bool.false_eq_true, if_false, List.mem_cons] at hx
      rcases hx with hx | hx
      · subst hx
        exact Or.inl ⟨List.mem_cons_self _ _, hd⟩
      · rcases ih hn.2 hx with ⟨h1, h2⟩ | ⟨h, h1, h2, h3⟩
        · exact Or.inl ⟨List.mem_cons_of_mem _ h1, h2⟩
        · exact Or.inr ⟨h, List.mem_cons_of_mem _ h1, h2, h3⟩

theorem ne_of_mem_deleteReview (rs : List Review) (rid : Id)
    (hn : (rs.map (fun r => r.id)).Nodup) (d : Review) (hd : d ∈ deleteReview rs rid) :
    d.id ≠ rid := by
  induction rs with
  | nil => simp [deleteReview] at hd
  | cons r t ih =>
    rw [List.map_cons, List.nodup_cons] at hn
    by_cases hr : r.id = rid
    · have hb : (r.id == rid) = true := by simpa using hr
      simp only [deleteReview, List.eraseP_cons, hb, cond_true] at hd
      intro hdr
      apply hn.1
      rw [hr, ← hdr]
      exact List.mem_map_of_mem (fun r => r.id) hd
    · have hb : (r.id == rid) = false := by simpa using hr
      simp only [deleteReview, List.eraseP_cons, hb, cond_false, List.mem_cons] at hd
      rcases hd with rfl | hd
      · exact hr
      · exact ih hn.2 hd

theorem mem_of_mem_populate (rs : List Review) (h : Hotel) (d : Review)
    (hd : d ∈ (populate rs h).reviews) : d ∈ rs := by
  simp only [populate, List.mem_filterMap] at hd
  obtain ⟨r, _, hr⟩ := hd
  exact List.mem_of_find?_eq_some hr

/-- C5: a delete-review request with castable ids H and R succeeds with a
redirect to H's page; afterwards no Hotel with id H lists R, no Review with id
R is in the store, and a show request for H renders a hotel whose expanded
reviews do not contain R. -/
theorem delete_review_removes_reference_and_record (cfg : Config) (newId : Id) (st : State)
    (req : Request) (id reviewId : String) (hid rid : Id)
    (hr : matchRoute req.method req.path = some (.deleteReview id reviewId))
    (hc : cfg.castId id = some hid) (hcr : cfg.castId reviewId = some rid)
    (hu : UniqueIds st) :
    (handle cfg newId st req).2 = .redirect ["hotels", id] ∧
    (∀ h ∈ (handle cfg newId st req).1.hotels, h.id = hid → rid ∉ h.reviews) ∧
    (∀ d ∈ (handle cfg newId st req).1.reviews, d.id ≠ rid) ∧
    findReview (handle cfg newId st req).1.reviews rid = none ∧
    (∀ (newId2 : Id) (req2 : Request) (id2 : String),
      matchRoute req2.method req2.path = some (.showHotel id2) →
      cfg.castId id2 = some hid →
      ∃ locals view, (handle cfg newId2 (handle cfg newId st req).1 req2).2 =
          .render 200 "hotels/show" locals (.hotelShow view) ∧
        ∀ p, view = some p → ∀ d ∈ p.reviews, d.id ≠ rid) := by
  have hd : dispatch cfg newId (flashLocals st req.sid).1 req =
      (flashSuccess { (flashLocals st req.sid).1 with
          hotels := updateHotel hid
            (fun d => { d with reviews := d.reviews.filter (fun r => r != rid) }) st.hotels,
          reviews := deleteReview st.reviews rid }
          req.sid "Deleted review!",
        .ok (.redirect ["hotels", id])) := by
    simp [dispatch, hr, runRoute, hc, hcr, flashLocals_hotels, flashLocals_reviews]
  have hst : (handle cfg newId st req).1 =
      flashSuccess { (flashLocals st req.sid).1 with
          hotels := updateHotel hid
            (fun d => { d with reviews := d.reviews.filter (fun r => r != rid) }) st.hotels,
          reviews := deleteReview st.reviews rid }
          req.sid "Deleted review!" := by
    rw [handle_eq, hd]
  have hrev : ∀ d ∈ (handle cfg newId st req).1.reviews, d.id ≠ rid := by
    rw [hst]
    exact fun d hd => ne_of_mem_deleteReview st.reviews rid hu.2 d hd
  refine ⟨by rw [handle_eq, hd]; rfl, ?_, hrev, findReview_eq_none_of_fresh _ _ hrev, ?_⟩
  · rw [hst]
    intro h hh hhid
    rcases mem_updateHotel hid _ st.hotels hu.1 h hh with ⟨_, hne⟩ | ⟨h0, _, _, rfl⟩
    · exact absurd hhid hne
    · simp
  · intro newId2 req2 id2 hr2 hc2
    refine ⟨(flashLocals (handle cfg newId st req).1 req2.sid).2, _,
      handle_show cfg newId2 _ req2 id2 hid hr2 hc2, ?_⟩
    intro p hp d hdp
    rw [Option.map_eq_some'] at hp
    obtain ⟨h, _, rfl⟩ := hp
    exact hrev d (mem_of_mem_populate _ h d hdp)

/-- On the sample store, deleting review 20 of hotel 2 removes the reference
and the record. -/
theorem delete_review_removes_reference_and_record_witness :
    (matchRoute deleteReview20Of2.method deleteReview20Of2.path =
        some (.deleteReview hotel2Id review20Id) ∧
      sampleConfig.castId hotel2Id = some 2 ∧ sampleConfig.castId review20Id = some 20 ∧
      UniqueIds sampleState) ∧
    (handle sampleConfig 0 sampleState deleteReview20Of2).2 = .redirect ["hotels", hotel2Id] ∧
    (∀ h ∈ (handle sampleConfig 0 sampleState deleteReview20Of2).1.hotels,
      h.id = 2 → 20 ∉ h.reviews) ∧
    findReview (handle sampleConfig 0 sampleState deleteReview20Of2).1.reviews 20 = none := by
  have h := delete_review_removes_reference_and_record sampleConfig 0 sampleState
    deleteReview20Of2 hotel2Id review20Id 2 20 (by decide) (by decide) (by decide) (by decide)
  exact ⟨⟨by decide, by decide, by decide, by decide⟩, h.1, h.2.1, h.2.2.2.1⟩

/-! ## A review for a hotel that does not exist -/

/-- C10: a create-review request whose body passes the review schema and
whose hotel id casts to an ObjectId that names no Hotel is answered with the
error page with status 500; no Review is created, no Hotel is modified and no
flash message is queued. -/
theorem create_review_missing_hotel (cfg : Config) (newId : Id) (st : State) (req : Request)
    (id : String) (hid : Id)
    (hr : matchRoute req.method req.path = some (.createReview id))
    (hv : cfg.reviewSchema req.body = none)
    (hc : cfg.castId id = some hid)
    (hh : findHotel st.hotels hid = none) :
    (handle cfg newId st req).1.reviews = st.reviews ∧
    (handle cfg newId st req).1.hotels = st.hotels ∧
    getFlash (handle cfg newId st req).1.sessions req.sid = { success := [], error := [] } ∧
    ∃ err, (handle cfg newId st req).2 =
      .render 500 "error" (flashLocals st req.sid).2 (.err err) := by
  have hd : dispatch cfg newId (flashLocals st req.sid).1 req =
      ((flashLocals st req.sid).1, .error (nullError "reviews")) := by
    simp [dispatch, hr, runRoute, validateReview, hv, hc, flashLocals_hotels, hh]
  have hst : (handle cfg newId st req).1 = (flashLocals st req.sid).1 := by
    rw [handle_eq, hd]
  have hresp : (handle cfg newId st req).2 =
      errorHandler (flashLocals st req.sid).2 (nullError "reviews") := by
    rw [handle_eq, hd]
  rw [hst, hresp]
  exact ⟨rfl, rfl, getFlash_flashLocals st req.sid,
    { nullError "reviews" with message := some (errMessage (nullError "reviews")) }, rfl⟩

/-- On the sample store there is no hotel 9: a valid review posted to it is
answered 500 and the store is as before. -/
theorem create_review_missing_hotel_witness :
    (matchRoute postReviewTo9.method postReviewTo9.path = some (.createReview hotel9Id) ∧
      sampleConfig.reviewSchema postReviewTo9.body = none ∧
      sampleConfig.castId hotel9Id = some 9 ∧ findHotel sampleState.hotels 9 = none) ∧
    (handle sampleConfig 30 sampleState postReviewTo9).1.reviews = sampleState.reviews ∧
    (handle sampleConfig 30 sampleState postReviewTo9).1.hotels = sampleState.hotels ∧
    getFlash (handle sampleConfig 30 sampleState postReviewTo9).1.sessions 7 =
      { success := [], error := [] } ∧
    (handle sampleConfig 30 sampleState postReviewTo9).2 =
      .render 500 "error" { success := ["old"], error := [] }
        (.err (nullError "reviews")) := by
  have h := create_review_missing_hotel sampleConfig 30 sampleState postReviewTo9 hotel9Id 9
    (by decide) (by decide) (by decide) (by decide)
  exact ⟨⟨by decide, by decide, by decide, by decide⟩, h.1, h.2.1, h.2.2.1, by decide⟩

/-! ## The referential invariant -/

theorem map_id_updateHotel (n : Id) (f : Hotel → Hotel) (hf : ∀ d, (f d).id = d.id)
    (hs : List Hotel) :
    (updateHotel n f hs).map (fun h => h.id) = hs.map (fun h => h.id) := by
  induction hs with
  | nil => rfl
  | cons d t ih =>
    by_cases hd : d.id = n
    · simp [updateHotel, hd, hf]
    · have hb : (d.id == n) = false := by simpa using hd
      rw [updateHotel]
      simp only [hb, Bool.false_eq_true, if_false, List.map_cons, ih]

theorem nodup_updateHotel (n : Id) (f : Hotel → Hotel) (hs : List Hotel)
    (hf : ∀ d, (f d).id = d.id) (hn : (hs.map (fun h => h.id)).Nodup) :
    ((updateHotel n f hs).map (fun h => h.id)).Nodup := by
  rw [map_id_updateHotel n f hf]
  exact hn

theorem insertHotel_some (hs l : List Hotel) (d : Hotel) (h : insertHotel hs d = some l) :
    l = hs ++ [d] ∧ ∀ x ∈ hs, x.id ≠ d.id := by
  unfold insertHotel at h
  split at h
  · cases h
  · rename_i hany
    simp only [Option.some.injEq] at h
    refine ⟨h.symm, ?_⟩
    intro x hx hxd
    apply hany
    rw [List.any_eq_true]
    exact ⟨x, hx, by simpa using hxd⟩

theorem insertReview_some (rs l : List Review) (d : Review) (h : insertReview rs d = some l) :
    l = rs ++ [d] ∧ ∀ x ∈ rs, x.id ≠ d.id := by
  unfold insertReview at h
  split at h
  · cases h
  · rename_i hany
    simp only [Option.some.injEq] at h
    refine ⟨h.symm, ?_⟩
    intro x hx hxd
    apply hany
    rw [List.any_eq_true]
    exact ⟨x, hx, by simpa using hxd⟩

theorem nodup_map_append_fresh {α : Type} (g : α → Id) (l : List α) (d : α)
    (hn : (l.map g).Nodup) (hf : ∀ x ∈ l, g x ≠ g d) : ((l ++ [d]).map g).Nodup := by
  rw [List.map_append, List.nodup_append]
  refine ⟨hn, by simp, ?_⟩
  intro a ha hb
  simp only [List.map_cons, List.map_nil, List.mem_singleton] at hb
  obtain ⟨x, hx, rfl⟩ := List.mem_map.mp ha
  exact hf x hx hb

theorem nodup_map_eraseP {α : Type} (g : α → Id) (p : α → Bool) (l : List α)
    (hn : (l.map g).Nodup) : ((l.eraseP p).map g).Nodup :=
  hn.sublist ((List.eraseP_sublist l).map g)

theorem refInv_updateHotel (st : State) (n : Id) (f : Hotel → Hotel) (sid : Nat) (msg : String)
    (hfid : ∀ d, (f d).id = d.id) (hfr : ∀ d, (f d).reviews = d.reviews)
    (hu : UniqueIds st) (hinv : RefInv st) :
    RefInv (flashSuccess { st with hotels := updateHotel n f st.hotels } sid msg) ∧
    UniqueIds (flashSuccess { st with hotels := updateHotel n f st.hotels } sid msg) := by
  constructor
  · intro h hh r hr
    rcases mem_updateHotel n f st.hotels hu.1 h hh with ⟨h1, _⟩ | ⟨h0, h1, _, rfl⟩
    · exact hinv h h1 r hr
    · rw [hfr] at hr
      exact hinv h0 h1 r hr
  · refine ⟨?_, hu.2⟩
    exact nodup_updateHotel n f st.hotels hfid hu.1

theorem ne_of_mem_erase_hotel (hs : List Hotel) (n : Id)
    (hn : (hs.map (fun h => h.id)).Nodup) (d : Hotel)
    (hd : d ∈ hs.eraseP (fun h => h.id == n)) : d.id ≠ n := by
  induction hs with
  | nil => simp at hd
  | cons x t ih =>
    rw [List.map_cons, List.nodup_cons] at hn
    by_cases hx : x.id = n
    · have hb : (x.id == n) = true := by simpa using hx
      simp only [List.eraseP_cons, hb, cond_true] at hd
      intro hdn
      apply hn.1
      rw [hx, ← hdn]
      exact List.mem_map_of_mem (fun h => h.id) hd
    · have hb : (x.id == n) = false := by simpa using hx
      simp only [List.eraseP_cons, hb, cond_false, List.mem_cons] at hd
      rcases hd with rfl | hd
      · exact hx
      · exact ih hn.2 hd

theorem refInv_deleteHotel (st : State) (hid : Id) (sid : Nat) (msg : String)
    (hu : UniqueIds st) (hinv : RefInv st)
    (hown : ∀ h ∈ st.hotels, h.id = hid → ∀ h2 ∈ st.hotels, h2.id ≠ hid →
      ∀ r ∈ h.reviews, r ∉ h2.reviews) :
    RefInv (flashSuccess { st with hotels := (deleteHotel st.hotels st.reviews hid).1,
                                   reviews := (deleteHotel st.hotels st.reviews hid).2 }
        sid msg) ∧
    UniqueIds (flashSuccess { st with hotels := (deleteHotel st.hotels st.reviews hid).1,
                                      reviews := (deleteHotel st.hotels st.reviews hid).2 }
        sid msg) := by
  unfold deleteHotel
  cases hf : findHotel st.hotels hid with
  | none => exact ⟨hinv, hu⟩
  | some h =>
    have hmem : h ∈ st.hotels := List.mem_of_find?_eq_some hf
    have hhid : h.id = hid := findHotel_id _ _ _ hf
    constructor
    · intro h2 hh2 r hr
      have h2mem : h2 ∈ st.hotels := List.mem_of_mem_eraseP hh2
      have h2ne : h2.id ≠ hid := ne_of_mem_erase_hotel st.hotels hid hu.1 h2 hh2
      obtain ⟨d, hd, hdr⟩ := hinv h2 h2mem r hr
      have hnot : r ∉ h.reviews := fun hrh => hown h hmem hhid h2 h2mem h2ne r hrh hr
      refine ⟨d, ?_, hdr⟩
      show d ∈ st.reviews.filter (fun r => !(h.reviews.contains r.id))
      rw [List.mem_filter]
      refine ⟨hd, ?_⟩
      rw [hdr]
      simpa using hnot
    · exact ⟨nodup_map_eraseP (fun h : Hotel => h.id) _ _ hu.1,
        hu.2.sublist ((List.filter_sublist st.reviews).map (fun r : Review => r.id))⟩

theorem runRoute_inv (cfg : Config) (newId : Id) (st : State) (sid : Nat) (body : Body)
    (r : Route) (hu : UniqueIds st) (hinv : RefInv st)
    (hown : ∀ id reviewId hid rid, r = .deleteReview id reviewId →
      cfg.castId id = some hid → cfg.castId reviewId = some rid →
      ∀ h ∈ st.hotels, h.id ≠ hid → rid ∉ h.reviews)
    (hownH : ∀ id hid, r = .destroy id → cfg.castId id = some hid →
      ∀ h ∈ st.hotels, h.id = hid → ∀ h2 ∈ st.hotels, h2.id ≠ hid →
        ∀ r ∈ h.reviews, r ∉ h2.reviews) :
    RefInv (runRoute cfg newId st sid body r).1 ∧
      UniqueIds (runRoute cfg newId st sid body r).1 := by
  cases r with
  | home => exact ⟨hinv, hu⟩
  | index => exact ⟨hinv, hu⟩
  | newForm => exact ⟨hinv, hu⟩
  | create =>
    simp only [runRoute]
    split
    · exact ⟨hinv, hu⟩
    · split
      · exact ⟨hinv, hu⟩
      · rename_i hotels hins
        obtain ⟨rfl, hfresh⟩ := insertHotel_some _ _ _ hins
        constructor
        · intro h hh r hr
          simp only [flashSuccess, List.mem_append, List.mem_singleton] at hh
          rcases hh with hh | rfl
          · exact hinv h hh r hr
          · simp at hr
        · exact ⟨nodup_map_append_fresh (fun h : Hotel => h.id) _ _ hu.1 hfresh, hu.2⟩
  | showHotel id =>
    simp only [runRoute]
    split <;> exact ⟨hinv, hu⟩
  | edit id =>
    simp only [runRoute]
    split <;> exact ⟨hinv, hu⟩
  | update id =>
    simp only [runRoute]
    split
    · exact ⟨hinv, hu⟩
    · split
      · exact ⟨hinv, hu⟩
      · rename_i hid hc
        split <;> exact refInv_updateHotel st hid _ sid _ (fun _ => rfl) (fun _ => rfl) hu hinv
  | destroy id =>
    simp only [runRoute]
    split
    · exact ⟨hinv, hu⟩
    · rename_i hid hc
      exact refInv_deleteHotel st hid sid _ hu hinv (hownH id hid rfl hc)
  | createReview id =>
    simp only [runRoute]
    split
    · exact ⟨hinv, hu⟩
    · split
      · exact ⟨hinv, hu⟩
      · split
        · exact ⟨hinv, hu⟩
        · rename_i hid hc hotel hh
          split
          · exact ⟨hinv, hu⟩
          · rename_i reviews hins
            obtain ⟨rfl, hfresh⟩ := insertReview_some _ _ _ hins
            constructor
            · intro h hmem r hr
              rcases mem_updateHotel hotel.id _ st.hotels hu.1 h hmem with
                ⟨h1, _⟩ | ⟨h0, h1, _, rfl⟩
              · obtain ⟨d, hd, hdr⟩ := hinv h h1 r hr
                exact ⟨d, List.mem_append_left _ hd, hdr⟩
              · simp only [List.mem_append, List.mem_singleton] at hr
                rcases hr with hr | rfl
                · obtain ⟨d, hd, hdr⟩ := hinv h0 h1 r hr
                  exact ⟨d, List.mem_append_left _ hd, hdr⟩
                · exact ⟨_, List.mem_append_right _ (List.mem_singleton_self _), rfl⟩
            · refine ⟨?_, nodup_map_append_fresh (fun r : Review => r.id) _ _ hu.2 hfresh⟩
              exact nodup_updateHotel _ _ _ (fun _ => rfl) hu.1
  | deleteReview id reviewId =>
    simp only [runRoute]
    split
    · rename_i hid rid hc hcr
      have hkeep : ∀ d ∈ st.reviews, d.id ≠ rid → d ∈ deleteReview st.reviews rid := by
        intro d hd hne
        exact (List.mem_eraseP_of_neg (by simpa using hne)).mpr hd
      constructor
      · intro h hmem r hr
        rcases mem_updateHotel hid _ st.hotels hu.1 h hmem with ⟨h1, hne⟩ | ⟨h0, h1, _, rfl⟩
        · obtain ⟨d, hd, hdr⟩ := hinv h h1 r hr
          have hrr : r ≠ rid := by
            rintro rfl
            exact hown id reviewId hid r rfl hc hcr h h1 hne hr
          exact ⟨d, hkeep d hd (by rw [hdr]; exact hrr), hdr⟩
        · simp only [List.mem_filter, bne_iff_ne, ne_eq] at hr
          obtain ⟨d, hd, hdr⟩ := hinv h0 h1 r hr.1
          exact ⟨d, hkeep d hd (by rw [hdr]; exact hr.2), hdr⟩
      · refine ⟨?_, nodup_map_eraseP (fun r : Review => r.id) _ _ hu.2⟩
        exact nodup_updateHotel _ _ _ (fun _ => rfl) hu.1
    · exact ⟨hinv, hu⟩

/-- C9, as stated, fails: on the sample store, where the invariant holds and
ids are unique, the request DELETE /hotels/2/reviews/10 succeeds with a
redirect; it pulls review 10 from hotel 2, which does not list it, deletes the
Review 10, and hotel 1 still lists it. Likewise on a store where hotels 1 and
2 both list review 10, the request DELETE /hotels/2 succeeds, its cascade
deletes the Review 10, and hotel 1 still lists it. -/
theorem refInv_broken_by_foreign_delete_review :
    (RefInv sampleState ∧ UniqueIds sampleState ∧
      (handle sampleConfig 0 sampleState deleteReview10Via2).2 =
        .redirect ["hotels", hotel2Id] ∧
      ¬ RefInv (handle sampleConfig 0 sampleState deleteReview10Via2).1) ∧
    (RefInv sharedState ∧ UniqueIds sharedState ∧
      (handle sampleConfig 0 sharedState deleteHotel2).2 = .redirect ["hotels"] ∧
      ¬ RefInv (handle sampleConfig 0 sharedState deleteHotel2).1) := by
  decide

/-- C9, amended: on a store with unique ids where every listed review exists,
any request that the application handles leaves every listed review existing
(and ids unique), provided that the reviews a delete request removes are
listed by no other hotel: a delete-review request names a review that no hotel
other than the one in its path lists, and a delete-hotel request names a hotel
none of whose reviews another hotel lists. The store calls of the handlers
fail only on an id that does not cast or on a duplicate key, in both cases
before anything is written, so the requests that end in such a failure satisfy
the statement as well as those handled to completion without one. -/
theorem refInv_preserved_by_own_requests (cfg : Config) (newId : Id) (st : State)
    (req : Request) (hu : UniqueIds st) (hinv : RefInv st) (hown : OwnReview cfg st req) :
    RefInv (handle cfg newId st req).1 ∧ UniqueIds (handle cfg newId st req).1 := by
  rw [handle_eq]
  simp only [dispatch]
  split
  · rename_i r hr
    refine runRoute_inv cfg newId (flashLocals st req.sid).1 req.sid req.body r hu hinv ?_ ?_
    · intro id reviewId hid rid hrd hc hcr
      subst hrd
      simp only [OwnReview, hr, hc, hcr] at hown
      exact hown
    · intro id hid hrd hc
      subst hrd
      simp only [OwnReview, hr, hc] at hown
      exact hown
  · exact ⟨hinv, hu⟩

/-- On the sample store, deleting review 20 through its own hotel 2 keeps the
invariant, and so does deleting hotel 2, whose only review no other hotel
lists: the hotel and the Review 20 are gone. -/
theorem refInv_preserved_by_own_requests_witness :
    (UniqueIds sampleState ∧ RefInv sampleState ∧
      OwnReview sampleConfig sampleState deleteReview20Of2 ∧
      OwnReview sampleConfig sampleState deleteHotel2) ∧
    RefInv (handle sampleConfig 0 sampleState deleteReview20Of2).1 ∧
    RefInv (handle sampleConfig 0 sampleState deleteHotel2).1 ∧
    (handle sampleConfig 0 sampleState deleteHotel2).1.hotels =
      [{ id := 1, fields := innFields, reviews := [10, 11] }] ∧
    (handle sampleConfig 0 sampleState deleteHotel2).1.reviews =
      [{ id := 10, fields := goodReview }, { id := 11, fields := goodReview }] :=
  ⟨by decide,
    (refInv_preserved_by_own_requests sampleConfig 0 sampleState deleteReview20Of2
      (by decide) (by decide) (by decide)).1,
    (refInv_preserved_by_own_requests sampleConfig 0 sampleState deleteHotel2
      (by decide) (by decide) (by decide)).1,
    by decide, by decide⟩

/-! ## Flash messages across requests -/

theorem getFlash_flashSuccess_other (st : State) (sid sid2 : Nat) (msg : String)
    (h : sid2 ≠ sid) :
    getFlash (flashSuccess st sid msg).sessions sid2 = getFlash st.sessions sid2 := by
  simp [flashSuccess, getFlash_setFlash_other _ _ _ _ h]

theorem getFlash_flashSuccess_same (st : State) (sid : Nat) (msg : String) :
    getFlash (flashSuccess st sid msg).sessions sid =
      { getFlash st.sessions sid with success := (getFlash st.sessions sid).success ++ [msg] } := by
  simp [flashSuccess, getFlash_setFlash_same]

theorem runRoute_getFlash_other (cfg : Config) (newId : Id) (st : State) (sid sid2 : Nat)
    (body : Body) (r : Route) (h : sid2 ≠ sid) :
    getFlash (runRoute cfg newId st sid body r).1.sessions sid2 = getFlash st.sessions sid2 := by
  cases r <;> simp only [runRoute] <;> (repeat' split) <;>
    first
      | rfl
      | exact getFlash_flashSuccess_other _ sid sid2 _ h

theorem handle_getFlash_other (cfg : Config) (newId : Id) (st : State) (req : Request)
    (sid : Nat) (h : req.sid ≠ sid) :
    getFlash (handle cfg newId st req).1.sessions sid = getFlash st.sessions sid := by
  have h2 : sid ≠ req.sid := fun e => h e.symm
  have hfl : getFlash (flashLocals st req.sid).1.sessions sid = getFlash st.sessions sid := by
    simp [flashLocals, getFlash_setFlash_other _ _ _ _ h2]
  rw [handle_eq]
  simp only [dispatch]
  split
  · rw [runRoute_getFlash_other _ _ _ _ _ _ _ h2, hfl]
  · exact hfl

theorem runAll_getFlash_other (cfg : Config) (rs : List (Id × Request)) (sid : Nat)
    (h : ∀ p ∈ rs, p.2.sid ≠ sid) (st : State) :
    getFlash (runAll cfg st rs).sessions sid = getFlash st.sessions sid := by
  induction rs generalizing st with
  | nil => rfl
  | cons p t ih =>
    have hp := h p (List.mem_cons_self _ _)
    have ht : ∀ q ∈ t, q.2.sid ≠ sid := fun q hq => h q (List.mem_cons_of_mem _ hq)
    simp only [runAll, List.foldl_cons]
    exact (ih ht _).trans (handle_getFlash_other cfg p.1 st p.2 sid hp)

theorem runRoute_getFlash_congr (cfg : Config) (newId : Id) (sid : Nat) (body : Body)
    (r : Route) (a b : State) (hh : a.hotels = b.hotels) (hr : a.reviews = b.reviews)
    (hf : getFlash a.sessions sid = getFlash b.sessions sid) :
    getFlash (runRoute cfg newId a sid body r).1.sessions sid =
      getFlash (runRoute cfg newId b sid body r).1.sessions sid := by
  obtain ⟨ha, ra, sa⟩ := a
  obtain ⟨hb, rb, sb⟩ := b
  simp only at hh hr hf
  subst hh hr
  cases r <;> simp only [runRoute] <;> (repeat' split) <;>
    simp_all [getFlash_flashSuccess_same]

theorem handle_render_locals (cfg : Config) (newId : Id) (st : State) (req : Request)
    (status : Nat) (view : String) (locals : Locals) (data : ViewData)
    (h : (handle cfg newId st req).2 = .render status view locals data) :
    locals = (flashLocals st req.sid).2 := by
  rw [handle_eq] at h
  simp only at h
  split at h
  · rename_i reply _
    cases reply <;> simp [Reply.toResponse] at h
    exact h.2.2.1.symm
  · simp [errorHandler] at h
    exact h.2.2.1.symm

theorem matchRoute_get (path : List String) (r : Route)
    (h : matchRoute .GET path = some r) :
    r = .home ∨ r = .index ∨ r = .newForm ∨ (∃ id, r = .showHotel id) ∨
      ∃ id, r = .edit id := by
  rcases path with _ | ⟨a, _ | ⟨b, _ | ⟨c, _ | ⟨d, _ | ⟨e, t⟩⟩⟩⟩⟩ <;>
    simp [matchRoute] at h
  · exact Or.inl h.symm
  · exact Or.inr (Or.inl h.2.symm)
  · obtain ⟨_, h2⟩ := h
    split at h2
    · exact Or.inr (Or.inr (Or.inl (by simpa using h2.symm)))
    · exact Or.inr (Or.inr (Or.inr (Or.inl ⟨b, by simpa using h2.symm⟩)))
  · exact Or.inr (Or.inr (Or.inr (Or.inr ⟨b, h.2.2.symm⟩)))

theorem dispatch_get_state (cfg : Config) (newId : Id) (st : State) (req : Request)
    (hm : req.method = .GET) : (dispatch cfg newId st req).1 = st := by
  unfold dispatch
  split
  · rename_i r hr
    rw [hm] at hr
    rcases matchRoute_get _ _ hr with rfl | rfl | rfl | ⟨id, rfl⟩ | ⟨id, rfl⟩ <;>
      simp only [runRoute] <;> (try split) <;> rfl
  · rfl

theorem handle_getFlash_congr (cfg : Config) (newId : Id) (req : Request) (a b : State)
    (hh : a.hotels = b.hotels) (hr : a.reviews = b.reviews) :
    getFlash (handle cfg newId a req).1.sessions req.sid =
      getFlash (handle cfg newId b req).1.sessions req.sid := by
  have hf : getFlash (flashLocals a req.sid).1.sessions req.sid =
      getFlash (flashLocals b req.sid).1.sessions req.sid := by
    rw [getFlash_flashLocals, getFlash_flashLocals]
  rw [handle_eq, handle_eq]
  simp only [dispatch]
  split
  · exact runRoute_getFlash_congr cfg newId req.sid req.body _ _ _ hh hr hf
  · exact hf

/-- C8: in a session, what one request leaves queued (the strings it flashed)
is exactly what the read at the start of the session's next request returns
into `res.locals`, whatever other sessions did in between; that read empties
the queue; a page rendered by that next request carries those locals; and the
locals of the request after it hold only what the next request itself flashed
(they are what they would be had nothing been queued before), so they are
empty when the next request is a GET. -/
theorem flash_consumed_once (cfg : Config) (st : State) (sid : Nat) (n1 n2 : Id)
    (r1 r2 : Request) (mid rest : List (Id × Request))
    (h1 : r1.sid = sid) (h2 : r2.sid = sid)
    (hmid : ∀ p ∈ mid, p.2.sid ≠ sid) (hrest : ∀ p ∈ rest, p.2.sid ≠ sid) :
    localsAt (runAll cfg (handle cfg n1 st r1).1 mid) sid =
      { success := (getFlash (handle cfg n1 st r1).1.sessions sid).success,
        error := (getFlash (handle cfg n1 st r1).1.sessions sid).error } ∧
    (∀ status view locals data,
      (handle cfg n2 (runAll cfg (handle cfg n1 st r1).1 mid) r2).2 =
        .render status view locals data →
      locals = { success := (getFlash (handle cfg n1 st r1).1.sessions sid).success,
                 error := (getFlash (handle cfg n1 st r1).1.sessions sid).error }) ∧
    getFlash (flashLocals (runAll cfg (handle cfg n1 st r1).1 mid) sid).1.sessions sid =
      { success := [], error := [] } ∧
    localsAt (runAll cfg (handle cfg n2 (runAll cfg (handle cfg n1 st r1).1 mid) r2).1 rest) sid =
      localsAt (handle cfg n2 (dropSessions (runAll cfg (handle cfg n1 st r1).1 mid)) r2).1 sid ∧
    (r2.method = .GET →
      localsAt (runAll cfg (handle cfg n2 (runAll cfg (handle cfg n1 st r1).1 mid) r2).1 rest) sid =
        { success := [], error := [] }) := by
  have ha : localsAt (runAll cfg (handle cfg n1 st r1).1 mid) sid =
      { success := (getFlash (handle cfg n1 st r1).1.sessions sid).success,
        error := (getFlash (handle cfg n1 st r1).1.sessions sid).error } := by
    simp only [localsAt, flashLocals]
    rw [runAll_getFlash_other cfg mid sid hmid]
  have hrestq : ∀ s, localsAt (runAll cfg s rest) sid =
      { success := (getFlash s.sessions sid).success,
        error := (getFlash s.sessions sid).error } := by
    intro s
    simp only [localsAt, flashLocals]
    rw [runAll_getFlash_other cfg rest sid hrest]
  refine ⟨ha, ?_, getFlash_flashLocals _ sid, ?_, ?_⟩
  · intro status view locals data hresp
    have := handle_render_locals cfg n2 _ r2 status view locals data hresp
    rw [h2] at this
    exact this.trans ha
  · rw [hrestq]
    subst h2
    rw [handle_getFlash_congr cfg n2 r2 (runAll cfg (handle cfg n1 st r1).1 mid)
      (dropSessions (runAll cfg (handle cfg n1 st r1).1 mid)) rfl rfl]
    rfl
  · intro hget
    rw [hrestq, handle_eq, dispatch_get_state cfg n2 _ r2 hget]
    subst h2
    rw [getFlash_flashLocals]

/-- On the sample store: session 7 creates a hotel, session 8 looks at the
list, session 7 follows the redirect and sees "New hotel created!" in its
locals; the request after that finds the locals empty. -/
theorem flash_consumed_once_witness :
    (postInn.sid = 7 ∧ getHotel3.sid = 7 ∧ (∀ p ∈ [((0 : Id), listBy8)], p.2.sid ≠ 7)) ∧
    localsAt (runAll sampleConfig (handle sampleConfig 3 sampleState postInn).1
        [(0, listBy8)]) 7 =
      { success := ["New hotel created!"], error := [] } ∧
    localsAt (runAll sampleConfig
        (handle sampleConfig 0
          (runAll sampleConfig (handle sampleConfig 3 sampleState postInn).1 [(0, listBy8)])
          getHotel3).1 []) 7 =
      { success := [], error := [] } := by
  have h := flash_consumed_once sampleConfig sampleState 7 3 0 postInn getHotel3
    [(0, listBy8)] [] rfl rfl (by decide) (by decide)
  refine ⟨⟨rfl, rfl, by decide⟩, ?_, h.2.2.2.2 rfl⟩
  rw [h.1]
  decide

end CheckInn
